import Mathlib

/-
Verification of spyder/plugins/ipythonconsole/widgets/control.py.

The file defines two QTextEdit subclasses, ControlWidget and
PageControlWidget.  Each overridden Qt callback is embedded as a pure
function from the widget state (and an environment record holding the
answers the Qt toolkit or the Spyder mixins would give, e.g. the result
of anchorAt, restore_keyevent, has_selected_text, isVisible) to the new
widget state paired with the ordered list of externally visible effects
the Python body performs (signal emissions, base-class delegations,
URL opening, cursor changes, text and frame insertion).
-/

set_option maxHeartbeats 1000000

/-- Cursor shapes from Qt used in this file (Qt.PointingHandCursor,
Qt.ArrowCursor). -/
inductive CursorShape where
  | pointingHand
  | arrow
  deriving DecidableEq, Repr

/-- A color value; only its identity matters for this file. -/
structure QColor where
  name : String
  deriving DecidableEq, Repr

/-- The theme palette constant QStylePalette.COLOR_TEXT_1 used by
insert_horizontal_ruler; an abstract color constant. -/
def QStylePalette.COLOR_TEXT_1 : QColor := ⟨"COLOR_TEXT_1"⟩

/-- Key codes distinguished by this file: Qt.Key_ParenLeft and
Qt.Key_Slash; every other key code is collapsed into `other`. -/
inductive Key where
  | parenLeft
  | slash
  | other (code : Nat)
  deriving DecidableEq, Repr

/-- The base-class (QTextEdit) handlers the overrides can delegate to. -/
inductive Handler where
  | showEvent
  | keyPress
  | focusIn
  | focusOut
  | mouseMove
  | mouseRelease
  deriving DecidableEq, Repr

/-- Externally visible actions performed by the Python method bodies. -/
inductive Effect where
  | emitVisibilityChanged (b : Bool)
  | emitFocusChanged
  | emitShowFindWidget
  | showObjectInfo (name : String)
  | insertText (t : String)
  | openUrl (url : String)
  | setOverrideCursor (c : CursorShape)
  | restoreOverrideCursor
  | callBase (h : Handler)
  | insertFrame (height width : Nat) (background : QColor)
  deriving DecidableEq, Repr

/-- Python truthiness of the `anchor` attribute: it is None initially and
a (possibly empty) string after a mouse move; None and the empty string
are falsy, any other string is truthy. -/
def pyTruthyOptStr (a : Option String) : Bool :=
  match a with
  | none => false
  | some s => decide (s ≠ "")

/-- Python str.isdigit restricted to the ASCII digits that occur here:
False on the empty string, True iff every character is a digit. -/
def pyIsdigit (s : String) : Bool :=
  decide (s.data ≠ []) && s.data.all Char.isDigit

/-- State of a ControlWidget instance: the attributes written by
__init__ and by the overridden handlers. -/
structure ControlWidget.State where
  anchor : Option String
  found_results : List Nat
  calltips : Bool
  current_prompt_pos : Option Int
  deriving DecidableEq, Repr

/-- ControlWidget.__init__: anchor = None, found_results = [],
calltips = False; current_prompt_pos is not yet set. -/
def ControlWidget.init : ControlWidget.State :=
  { anchor := none
  , found_results := []
  , calltips := false
  , current_prompt_pos := none }

/-- Data produced by restore_keyevent together with the toolkit and
mixin queries made by ControlWidget.keyPressEvent. -/
structure KeyEnv where
  key : Key
  text : String
  ctrl : Bool
  shift : Bool
  has_selected_text : Bool
  help_enabled : Bool
  parent_reading : Bool
  deriving DecidableEq, Repr

/-- Toolkit and mixin answers consumed by _key_paren_left: the parent
widget prompt position, get_current_line_to_cursor() and
get_last_obj() (the empty string standing for an absent object). -/
structure ParenEnv where
  parent_prompt_pos : Int
  current_line_to_cursor : String
  last_obj : String
  deriving DecidableEq, Repr

/-- ControlWidget._key_paren_left: store the parent prompt position,
show object info when the current line up to the cursor is truthy and
the last object is truthy and not solely digits, then insert the text. -/
def ControlWidget.key_paren_left (st : ControlWidget.State)
    (penv : ParenEnv) (text : String) :
    ControlWidget.State × List Effect :=
  let st1 := { st with current_prompt_pos := some penv.parent_prompt_pos }
  let helpEffs : List Effect :=
    if penv.current_line_to_cursor ≠ "" then
      if penv.last_obj ≠ "" ∧ pyIsdigit penv.last_obj = false then
        [Effect.showObjectInfo penv.last_obj]
      else []
    else []
  (st1, helpEffs ++ [Effect.insertText text])

/-- ControlWidget.showEvent: emit visibility_changed(True). -/
def ControlWidget.showEvent (st : ControlWidget.State) :
    ControlWidget.State × List Effect :=
  (st, [Effect.emitVisibilityChanged true])

/-- ControlWidget.keyPressEvent: special-case Key_ParenLeft with no
selection, help enabled and parent not reading; otherwise delegate to
QTextEdit.keyPressEvent. -/
def ControlWidget.keyPressEvent (st : ControlWidget.State)
    (env : KeyEnv) (penv : ParenEnv) :
    ControlWidget.State × List Effect :=
  if env.key = Key.parenLeft ∧ env.has_selected_text = false
      ∧ env.help_enabled = true ∧ env.parent_reading = false then
    ControlWidget.key_paren_left st penv env.text
  else
    (st, [Effect.callBase Handler.keyPress])

/-- ControlWidget.focusInEvent: emit focus_changed then delegate. -/
def ControlWidget.focusInEvent (st : ControlWidget.State) :
    ControlWidget.State × List Effect :=
  (st, [Effect.emitFocusChanged, Effect.callBase Handler.focusIn])

/-- ControlWidget.focusOutEvent: emit focus_changed then delegate. -/
def ControlWidget.focusOutEvent (st : ControlWidget.State) :
    ControlWidget.State × List Effect :=
  (st, [Effect.emitFocusChanged, Effect.callBase Handler.focusOut])

/-- ControlWidget.mouseMoveEvent: anchor := anchorAt(event.pos());
set the pointing-hand override cursor when it is truthy, restore the
override cursor otherwise, then delegate.  `anchorAtResult` is the
string the toolkit hit-test returns. -/
def ControlWidget.mouseMoveEvent (st : ControlWidget.State)
    (anchorAtResult : String) :
    ControlWidget.State × List Effect :=
  let st1 := { st with anchor := some anchorAtResult }
  let cursorEffs : List Effect :=
    if pyTruthyOptStr st1.anchor then
      [Effect.setOverrideCursor CursorShape.pointingHand]
    else
      [Effect.restoreOverrideCursor]
  (st1, cursorEffs ++ [Effect.callBase Handler.mouseMove])

/-- ControlWidget.mouseReleaseEvent: when anchor is truthy, open it as a
URL, set the arrow override cursor and clear anchor to None; otherwise
delegate to QTextEdit.mouseReleaseEvent.  In the truthy branch the
anchor is some nonempty string, so getD never supplies its default. -/
def ControlWidget.mouseReleaseEvent (st : ControlWidget.State) :
    ControlWidget.State × List Effect :=
  if pyTruthyOptStr st.anchor then
    ({ st with anchor := none }
    , [ Effect.openUrl (st.anchor.getD "")
      , Effect.setOverrideCursor CursorShape.arrow ])
  else
    (st, [Effect.callBase Handler.mouseRelease])

/-- ControlWidget.insert_horizontal_ruler: insert at the text cursor a
frame of height 1, width 10000, background COLOR_TEXT_1. -/
def ControlWidget.insert_horizontal_ruler (st : ControlWidget.State) :
    ControlWidget.State × List Effect :=
  (st, [Effect.insertFrame 1 10000 QStylePalette.COLOR_TEXT_1])

/-- State of a PageControlWidget instance (only found_results). -/
structure PageControlWidget.State where
  found_results : List Nat
  deriving DecidableEq, Repr

/-- PageControlWidget.__init__: found_results = []. -/
def PageControlWidget.init : PageControlWidget.State :=
  { found_results := [] }

/-- PageControlWidget.showEvent: emit visibility_changed(True). -/
def PageControlWidget.showEvent (st : PageControlWidget.State) :
    PageControlWidget.State × List Effect :=
  (st, [Effect.emitVisibilityChanged true])

/-- PageControlWidget.keyPressEvent: emit show_find_widget when the key
is Key_Slash and the widget is visible; otherwise delegate. -/
def PageControlWidget.keyPressEvent (st : PageControlWidget.State)
    (key : Key) (visible : Bool) :
    PageControlWidget.State × List Effect :=
  if key = Key.slash ∧ visible = true then
    (st, [Effect.emitShowFindWidget])
  else
    (st, [Effect.callBase Handler.keyPress])

/-- PageControlWidget.focusInEvent: emit focus_changed then delegate. -/
def PageControlWidget.focusInEvent (st : PageControlWidget.State) :
    PageControlWidget.State × List Effect :=
  (st, [Effect.emitFocusChanged, Effect.callBase Handler.focusIn])

/-- PageControlWidget.focusOutEvent: emit focus_changed then delegate. -/
def PageControlWidget.focusOutEvent (st : PageControlWidget.State) :
    PageControlWidget.State × List Effect :=
  (st, [Effect.emitFocusChanged, Effect.callBase Handler.focusOut])

/-- Does the effect emit one of the Qt signals declared in this file? -/
def Effect.isEmit : Effect → Bool
  | Effect.emitVisibilityChanged _ => true
  | Effect.emitFocusChanged => true
  | Effect.emitShowFindWidget => true
  | _ => false

/-- Does the effect delegate to a base-class implementation? -/
def Effect.isCallBase : Effect → Bool
  | Effect.callBase _ => true
  | _ => false

/-- Does the effect perform a local action of the handler bodies other
than emitting or delegating (opening the anchor URL, requesting object
info, inserting the typed text)? -/
def Effect.isLocalAction : Effect → Bool
  | Effect.openUrl _ => true
  | Effect.showObjectInfo _ => true
  | Effect.insertText _ => true
  | _ => false

/-- The effect list of a handler invocation delegates to the base
implementation or emits a notification signal. -/
def delegatesOrEmits (effs : List Effect) : Bool :=
  effs.any fun e => e.isEmit || e.isCallBase

/-- The effect list delegates, emits, or performs a local action. -/
def handlesEvent (effs : List Effect) : Bool :=
  effs.any fun e => e.isEmit || e.isCallBase || e.isLocalAction

/-- Events a ControlWidget can receive, with the toolkit answers each
handler consumes. -/
inductive CWEvent where
  | showEvent
  | keyPress (env : KeyEnv) (penv : ParenEnv)
  | focusIn
  | focusOut
  | mouseMove (anchorAtResult : String)
  | mouseRelease
  | insertRuler
  deriving DecidableEq, Repr

/-- Dispatch one event to the corresponding ControlWidget handler. -/
def ControlWidget.step (st : ControlWidget.State) :
    CWEvent → ControlWidget.State × List Effect
  | CWEvent.showEvent => ControlWidget.showEvent st
  | CWEvent.keyPress env penv => ControlWidget.keyPressEvent st env penv
  | CWEvent.focusIn => ControlWidget.focusInEvent st
  | CWEvent.focusOut => ControlWidget.focusOutEvent st
  | CWEvent.mouseMove s => ControlWidget.mouseMoveEvent st s
  | CWEvent.mouseRelease => ControlWidget.mouseReleaseEvent st
  | CWEvent.insertRuler => ControlWidget.insert_horizontal_ruler st

/-- Run a sequence of events, keeping only the final state. -/
def ControlWidget.run (st : ControlWidget.State) :
    List CWEvent → ControlWidget.State
  | [] => st
  | e :: es => ControlWidget.run (ControlWidget.step st e).1 es

/-- C1: on every mouse move the anchor field is overwritten with the
toolkit hit-test result; when that anchor is nonempty the pointing-hand
override cursor is set, otherwise the override cursor is restored; and
a mouse release that opens an anchor clears the anchor to None. -/
theorem C1_anchor_tracking :
    (∀ (st : ControlWidget.State) (s : String),
      (ControlWidget.mouseMoveEvent st s).1.anchor = some s
      ∧ (s ≠ "" →
          Effect.setOverrideCursor CursorShape.pointingHand
            ∈ (ControlWidget.mouseMoveEvent st s).2)
      ∧ (s = "" →
          Effect.restoreOverrideCursor ∈ (ControlWidget.mouseMoveEvent st s).2))
    ∧ (∀ st : ControlWidget.State, pyTruthyOptStr st.anchor = true →
        (ControlWidget.mouseReleaseEvent st).1.anchor = none) := by
  constructor
  · intro st s
    refine ⟨rfl, ?_, ?_⟩
    · intro hs
      simp [ControlWidget.mouseMoveEvent, pyTruthyOptStr, hs]
    · intro hs
      simp [ControlWidget.mouseMoveEvent, pyTruthyOptStr, hs]
  · intro st h
    simp [ControlWidget.mouseReleaseEvent, h]

/-- Witness for C1 at concrete inputs. -/
theorem C1_anchor_tracking_witness :
    (ControlWidget.mouseMoveEvent ControlWidget.init "http://a").1.anchor
        = some "http://a"
    ∧ Effect.setOverrideCursor CursorShape.pointingHand
        ∈ (ControlWidget.mouseMoveEvent ControlWidget.init "http://a").2
    ∧ (ControlWidget.mouseReleaseEvent
        { ControlWidget.init with anchor := some "http://a" }).1.anchor = none :=
  ⟨(C1_anchor_tracking.1 ControlWidget.init "http://a").1,
   (C1_anchor_tracking.1 ControlWidget.init "http://a").2.1 (by decide),
   C1_anchor_tracking.2 { ControlWidget.init with anchor := some "http://a" }
     (by decide)⟩

/-- C2: on mouse release, a truthy anchor is opened as a URL and the
event is not delegated, while a falsy anchor means the event is
delegated and no URL is opened; the two outcomes partition all cases. -/
theorem C2_mouse_release_cases :
    ∀ st : ControlWidget.State,
      (pyTruthyOptStr st.anchor = true →
        (∃ u, st.anchor = some u
          ∧ Effect.openUrl u ∈ (ControlWidget.mouseReleaseEvent st).2)
        ∧ Effect.callBase Handler.mouseRelease
            ∉ (ControlWidget.mouseReleaseEvent st).2)
      ∧ (pyTruthyOptStr st.anchor = false →
        (ControlWidget.mouseReleaseEvent st).2
            = [Effect.callBase Handler.mouseRelease]
        ∧ ∀ u, Effect.openUrl u ∉ (ControlWidget.mouseReleaseEvent st).2) := by
  intro st
  constructor
  · intro h
    match hst : st.anchor with
    | none => simp [pyTruthyOptStr, hst] at h
    | some u =>
      rw [hst] at h
      constructor
      · exact ⟨u, rfl, by simp [ControlWidget.mouseReleaseEvent, h, hst]⟩
      · simp [ControlWidget.mouseReleaseEvent, h, hst]
  · intro h
    constructor
    · simp [ControlWidget.mouseReleaseEvent, h]
    · intro u
      simp [ControlWidget.mouseReleaseEvent, h]

/-- Witness for C2 at concrete inputs (both branches). -/
theorem C2_mouse_release_cases_witness :
    (∃ u, ({ ControlWidget.init with anchor := some "http://b" }
            : ControlWidget.State).anchor = some u
      ∧ Effect.openUrl u ∈ (ControlWidget.mouseReleaseEvent
          { ControlWidget.init with anchor := some "http://b" }).2)
    ∧ (ControlWidget.mouseReleaseEvent ControlWidget.init).2
        = [Effect.callBase Handler.mouseRelease] :=
  ⟨((C2_mouse_release_cases
      { ControlWidget.init with anchor := some "http://b" }).1 (by decide)).1,
   ((C2_mouse_release_cases ControlWidget.init).2 (by decide)).1⟩

/-- C3: the paren-left helper runs exactly when the key is
Key_ParenLeft, no text is selected, help is enabled and the parent is
not reading; in every other case the event goes unchanged to the base
QTextEdit key-press handler. -/
theorem C3_keypress_dispatch :
    ∀ (st : ControlWidget.State) (env : KeyEnv) (penv : ParenEnv),
      ((env.key = Key.parenLeft ∧ env.has_selected_text = false
          ∧ env.help_enabled = true ∧ env.parent_reading = false) →
        ControlWidget.keyPressEvent st env penv
          = ControlWidget.key_paren_left st penv env.text)
      ∧ (¬(env.key = Key.parenLeft ∧ env.has_selected_text = false
          ∧ env.help_enabled = true ∧ env.parent_reading = false) →
        ControlWidget.keyPressEvent st env penv
          = (st, [Effect.callBase Handler.keyPress])) := by
  intro st env penv
  constructor
  · intro h
    simp [ControlWidget.keyPressEvent, h]
  · intro h
    simp [ControlWidget.keyPressEvent, h]

/-- Witness for C3 at concrete inputs (both branches). -/
theorem C3_keypress_dispatch_witness :
    ControlWidget.keyPressEvent ControlWidget.init
        ⟨Key.parenLeft, "(", false, false, false, true, false⟩
        ⟨0, "", ""⟩
      = ControlWidget.key_paren_left ControlWidget.init ⟨0, "", ""⟩ "("
    ∧ ControlWidget.keyPressEvent ControlWidget.init
        ⟨Key.slash, "/", false, false, false, true, false⟩
        ⟨0, "", ""⟩
      = (ControlWidget.init, [Effect.callBase Handler.keyPress]) :=
  ⟨(C3_keypress_dispatch ControlWidget.init
      ⟨Key.parenLeft, "(", false, false, false, true, false⟩ ⟨0, "", ""⟩).1
      (by refine ⟨rfl, rfl, rfl, rfl⟩),
   (C3_keypress_dispatch ControlWidget.init
      ⟨Key.slash, "/", false, false, false, true, false⟩ ⟨0, "", ""⟩).2
      (by intro h; exact absurd h.1 (by decide))⟩

/-- C4 counterexample: with a truthy anchor, mouseReleaseEvent only
opens the URL and changes the cursor; it neither delegates to the base
implementation nor emits a signal, refuting the claim that every
overridden callback does one of the two on every invocation. -/
theorem C4_counterexample :
    delegatesOrEmits
      (ControlWidget.mouseReleaseEvent
        { ControlWidget.init with anchor := some "http://c" }).2 = false := by
  decide

/-- C4 amended: every overridden callback in the file, on every
invocation, either delegates to the base implementation, emits a
notification signal, or performs a direct local action of its body
(opening the detected anchor URL, or on the paren-left path requesting
object info / inserting the typed text). -/
theorem C4_amended_handlers :
    (∀ st : ControlWidget.State, handlesEvent (ControlWidget.showEvent st).2 = true)
    ∧ (∀ (st : ControlWidget.State) (env : KeyEnv) (penv : ParenEnv),
        handlesEvent (ControlWidget.keyPressEvent st env penv).2 = true)
    ∧ (∀ st : ControlWidget.State, handlesEvent (ControlWidget.focusInEvent st).2 = true)
    ∧ (∀ st : ControlWidget.State, handlesEvent (ControlWidget.focusOutEvent st).2 = true)
    ∧ (∀ (st : ControlWidget.State) (s : String),
        handlesEvent (ControlWidget.mouseMoveEvent st s).2 = true)
    ∧ (∀ st : ControlWidget.State, handlesEvent (ControlWidget.mouseReleaseEvent st).2 = true)
    ∧ (∀ st : PageControlWidget.State, handlesEvent (PageControlWidget.showEvent st).2 = true)
    ∧ (∀ (st : PageControlWidget.State) (k : Key) (v : Bool),
        handlesEvent (PageControlWidget.keyPressEvent st k v).2 = true)
    ∧ (∀ st : PageControlWidget.State, handlesEvent (PageControlWidget.focusInEvent st).2 = true)
    ∧ (∀ st : PageControlWidget.State, handlesEvent (PageControlWidget.focusOutEvent st).2 = true) := by
  refine ⟨fun st => rfl, fun st env penv => ?_, fun st => rfl, fun st => rfl,
    fun st s => ?_, fun st => ?_, fun st => rfl, fun st k v => ?_,
    fun st => rfl, fun st => rfl⟩
  · by_cases h : env.key = Key.parenLeft ∧ env.has_selected_text = false
      ∧ env.help_enabled = true ∧ env.parent_reading = false
    · simp only [ControlWidget.keyPressEvent, if_pos h,
        ControlWidget.key_paren_left]
      by_cases h1 : penv.current_line_to_cursor ≠ ""
      · by_cases h2 : penv.last_obj ≠ "" ∧ pyIsdigit penv.last_obj = false
        · simp [handlesEvent, Effect.isLocalAction, h1, h2]
        · simp [handlesEvent, Effect.isLocalAction, h1, h2]
      · simp [handlesEvent, Effect.isLocalAction, h1]
    · simp [ControlWidget.keyPressEvent, if_neg h, handlesEvent,
        Effect.isCallBase]
  · by_cases h : pyTruthyOptStr (some s) = true
    · simp [ControlWidget.mouseMoveEvent, h, handlesEvent, Effect.isCallBase]
    · simp [ControlWidget.mouseMoveEvent, h, handlesEvent, Effect.isCallBase]
  · by_cases h : pyTruthyOptStr st.anchor = true
    · simp [ControlWidget.mouseReleaseEvent, h, handlesEvent,
        Effect.isLocalAction]
    · simp [ControlWidget.mouseReleaseEvent, h, handlesEvent,
        Effect.isCallBase]
  · by_cases h : k = Key.slash ∧ v = true
    · simp [PageControlWidget.keyPressEvent, h, handlesEvent, Effect.isEmit]
    · simp [PageControlWidget.keyPressEvent, h, handlesEvent,
        Effect.isCallBase]

/-- C5: PageControlWidget.keyPressEvent emits show_find_widget exactly
when the key is Key_Slash and the widget is visible, without
delegating; in every other case it delegates unchanged and does not
emit show_find_widget. -/
theorem C5_page_keypress :
    ∀ (st : PageControlWidget.State) (k : Key) (v : Bool),
      ((k = Key.slash ∧ v = true) →
        PageControlWidget.keyPressEvent st k v
          = (st, [Effect.emitShowFindWidget]))
      ∧ (¬(k = Key.slash ∧ v = true) →
        PageControlWidget.keyPressEvent st k v
          = (st, [Effect.callBase Handler.keyPress])) := by
  intro st k v
  constructor
  · intro h
    simp [PageControlWidget.keyPressEvent, h]
  · intro h
    simp [PageControlWidget.keyPressEvent, h]

/-- Witness for C5 at concrete inputs (both branches). -/
theorem C5_page_keypress_witness :
    PageControlWidget.keyPressEvent PageControlWidget.init Key.slash true
      = (PageControlWidget.init, [Effect.emitShowFindWidget])
    ∧ PageControlWidget.keyPressEvent PageControlWidget.init Key.slash false
      = (PageControlWidget.init, [Effect.callBase Handler.keyPress]) :=
  ⟨(C5_page_keypress PageControlWidget.init Key.slash true).1
      ⟨rfl, rfl⟩,
   (C5_page_keypress PageControlWidget.init Key.slash false).2
      (by intro h; exact absurd h.2 (by decide))⟩

/-- C6: every show event on either widget emits visibility_changed with
True (and does nothing else). -/
theorem C6_show_visibility :
    ∀ (st : ControlWidget.State) (pst : PageControlWidget.State),
      (ControlWidget.showEvent st).2 = [Effect.emitVisibilityChanged true]
      ∧ (PageControlWidget.showEvent pst).2
          = [Effect.emitVisibilityChanged true] :=
  fun _ _ => ⟨rfl, rfl⟩

/-- C7: every focus-in and focus-out event on either widget emits
focus_changed and then delegates to the base implementation, leaving
the widget state unchanged. -/
theorem C7_focus_events :
    ∀ (st : ControlWidget.State) (pst : PageControlWidget.State),
      ControlWidget.focusInEvent st
          = (st, [Effect.emitFocusChanged, Effect.callBase Handler.focusIn])
      ∧ ControlWidget.focusOutEvent st
          = (st, [Effect.emitFocusChanged, Effect.callBase Handler.focusOut])
      ∧ PageControlWidget.focusInEvent pst
          = (pst, [Effect.emitFocusChanged, Effect.callBase Handler.focusIn])
      ∧ PageControlWidget.focusOutEvent pst
          = (pst, [Effect.emitFocusChanged, Effect.callBase Handler.focusOut]) :=
  fun _ _ => ⟨rfl, rfl, rfl, rfl⟩

/-- C8: insert_horizontal_ruler inserts one frame of height 1 and width
10000 with background COLOR_TEXT_1 and changes no widget state. -/
theorem C8_horizontal_ruler :
    ∀ st : ControlWidget.State,
      ControlWidget.insert_horizontal_ruler st
        = (st, [Effect.insertFrame 1 10000 QStylePalette.COLOR_TEXT_1]) :=
  fun _ => rfl

/-- Auxiliary: a run containing no mouse-move event never turns a None
anchor into anything else, since only mouseMoveEvent writes a non-None
value into the anchor attribute. -/
theorem ControlWidget.run_anchor_none (evs : List CWEvent) :
    ∀ st : ControlWidget.State, st.anchor = none →
      (∀ s, CWEvent.mouseMove s ∉ evs) →
      (ControlWidget.run st evs).anchor = none := by
  induction evs with
  | nil => intro st h _; exact h
  | cons e es ih =>
    intro st h hnm
    have hes : ∀ s, CWEvent.mouseMove s ∉ es :=
      fun s hs => hnm s (List.mem_cons_of_mem _ hs)
    have hstep : (ControlWidget.step st e).1.anchor = none := by
      cases e with
      | showEvent => exact h
      | keyPress env penv =>
        simp only [ControlWidget.step, ControlWidget.keyPressEvent]
        split
        · simp [ControlWidget.key_paren_left, h]
        · exact h
      | focusIn => exact h
      | focusOut => exact h
      | mouseMove s => exact absurd (List.mem_cons_self _ _) (hnm s)
      | mouseRelease =>
        simp [ControlWidget.step, ControlWidget.mouseReleaseEvent, h,
          pyTruthyOptStr]
      | insertRuler => exact h
    have := ih (ControlWidget.step st e).1 hstep hes
    simpa [ControlWidget.run] using this

/-- C9: right after __init__ the anchor is None, found_results is the
empty list and calltips is False; consequently after any sequence of
events containing no mouse move, a mouse release is delegated to the
base implementation and opens no URL. -/
theorem C9_init_state :
    ControlWidget.init.anchor = none
    ∧ ControlWidget.init.found_results = []
    ∧ ControlWidget.init.calltips = false
    ∧ ∀ evs : List CWEvent, (∀ s, CWEvent.mouseMove s ∉ evs) →
        (ControlWidget.mouseReleaseEvent
            (ControlWidget.run ControlWidget.init evs)).2
          = [Effect.callBase Handler.mouseRelease]
        ∧ ∀ u, Effect.openUrl u
            ∉ (ControlWidget.mouseReleaseEvent
                (ControlWidget.run ControlWidget.init evs)).2 := by
  refine ⟨rfl, rfl, rfl, ?_⟩
  intro evs hnm
  have ha := ControlWidget.run_anchor_none evs ControlWidget.init rfl hnm
  constructor
  · simp [ControlWidget.mouseReleaseEvent, ha, pyTruthyOptStr]
  · intro u
    simp [ControlWidget.mouseReleaseEvent, ha, pyTruthyOptStr]

/-- Witness for C9 on the concrete mouse-move-free trace [focusIn]. -/
theorem C9_init_state_witness :
    (ControlWidget.mouseReleaseEvent
        (ControlWidget.run ControlWidget.init [CWEvent.focusIn])).2
      = [Effect.callBase Handler.mouseRelease] :=
  (C9_init_state.2.2.2 [CWEvent.focusIn] (by intro s hs; simp at hs)).1

/-- C10: the paren-left helper requests object info exactly when the
current line up to the cursor is nonempty and the last object is
nonempty and not solely digits; the object shown is that last object;
and in every case the typed text is inserted last. -/
theorem C10_paren_left_help :
    ∀ (st : ControlWidget.State) (penv : ParenEnv) (text : String),
      ((∃ n, Effect.showObjectInfo n
          ∈ (ControlWidget.key_paren_left st penv text).2)
        ↔ (penv.current_line_to_cursor ≠ "" ∧ penv.last_obj ≠ ""
            ∧ pyIsdigit penv.last_obj = false))
      ∧ (∀ n, Effect.showObjectInfo n
          ∈ (ControlWidget.key_paren_left st penv text).2
            → n = penv.last_obj)
      ∧ (ControlWidget.key_paren_left st penv text).2.getLast?
          = some (Effect.insertText text) := by
  intro st penv text
  by_cases h1 : penv.current_line_to_cursor = ""
  · refine ⟨⟨?_, ?_⟩, ?_, ?_⟩
    · rintro ⟨n, hn⟩
      simp [ControlWidget.key_paren_left, h1] at hn
    · rintro ⟨hc, _⟩
      exact absurd h1 hc
    · intro n hn
      simp [ControlWidget.key_paren_left, h1] at hn
    · simp [ControlWidget.key_paren_left, h1]
  · by_cases h2 : penv.last_obj ≠ "" ∧ pyIsdigit penv.last_obj = false
    · refine ⟨⟨?_, ?_⟩, ?_, ?_⟩
      · intro _
        exact ⟨h1, h2.1, h2.2⟩
      · intro _
        exact ⟨penv.last_obj, by simp [ControlWidget.key_paren_left, h1, h2]⟩
      · intro n hn
        simp [ControlWidget.key_paren_left, h1, h2] at hn
        exact hn
      · simp [ControlWidget.key_paren_left, h1, h2]
    · refine ⟨⟨?_, ?_⟩, ?_, ?_⟩
      · rintro ⟨n, hn⟩
        simp [ControlWidget.key_paren_left, h1, h2] at hn
      · rintro ⟨_, ho, hd⟩
        exact absurd ⟨ho, hd⟩ h2
      · intro n hn
        simp [ControlWidget.key_paren_left, h1, h2] at hn
      · simp [ControlWidget.key_paren_left, h1, h2]

/-- Witness for C10 at a concrete nonempty line and object. -/
theorem C10_paren_left_help_witness :
    (∃ n, Effect.showObjectInfo n
        ∈ (ControlWidget.key_paren_left ControlWidget.init
            ⟨0, "x = foo", "foo"⟩ "(").2)
    ∧ (ControlWidget.key_paren_left ControlWidget.init
        ⟨0, "x = foo", "foo"⟩ "(").2.getLast?
      = some (Effect.insertText "(") :=
  ⟨(C10_paren_left_help ControlWidget.init ⟨0, "x = foo", "foo"⟩ "(").1.mpr
      ⟨by decide, by decide, by decide⟩,
   (C10_paren_left_help ControlWidget.init ⟨0, "x = foo", "foo"⟩ "(").2.2⟩
